import Mathlib

/-!
# Verification of `rovio` FilterStates (`src/include/rovio/FilterStates.hpp`)

Shallow embedding of the ROVIO filter-state data model and feature-slot
lifecycle operations.  C++ `double` values are modelled as real numbers (`ℝ`),
so floating-point rounding is idealized away; "finite" is expressed through
explicit bounds.  Fixed-size Eigen vectors, quaternions and matrices become
small Lean structures and `ℕ`-indexed functions.  Template parameters
`nMax` (feature capacity) and `nCam` (camera count) are passed explicitly.

The generic state-container framework (`lightweight_filtering`), kindr
quaternions and Eigen are external libraries that the spec puts out of scope;
they are modelled by their documented semantics:
* `LWF::NormalVectorElement` (a 2-parameter unit bearing) is modelled by the
  unit 3-vector it represents: `setFromVector` stores the normalized input,
  `setIdentity` stores the reference direction `(0,0,1)`, `getVec` reads it.
* `kindr` rotation quaternions use the Hamilton product; `rotate` conjugates a
  pure quaternion, `inverted` is conjugation (rotation quaternions are unit).
* The covariance matrix is a total function `ℕ → ℕ → ℝ`; Eigen block writes
  touch exactly the index rectangle of the block.

Error-space dimensions of the `LWF::State` element list (source lines
256–263): four 3-vectors (12) + attitude quaternion (3) + `nCam` extrinsic
3-vectors (3·nCam) + `nCam` extrinsic quaternions (3·nCam) + `nMax` depth
scalars (nMax) + `nMax` bearing elements (2·nMax).  Hence the total dimension
`D = 15 + 6·nCam + 3·nMax`, the depth scalar of slot `i` sits at row/column
`15 + 6·nCam + i` and the bearing pair of slot `i` at rows/columns
`15 + 6·nCam + nMax + 2·i` and the successor.
-/

namespace rovio

/-- A 3-vector (Eigen `V3D`, entries modelled as reals). -/
structure Vec3 where
  x : ℝ
  y : ℝ
  z : ℝ

/-- A 2-vector (Eigen `Eigen::Vector2d`). -/
structure Vec2 where
  x : ℝ
  y : ℝ

/-- A quaternion (kindr `QPD`), w scalar part, (x,y,z) vector part. -/
structure Quat where
  w : ℝ
  x : ℝ
  y : ℝ
  z : ℝ

/-- Hamilton product of quaternions (kindr quaternion composition). -/
def Quat.mul (p q : Quat) : Quat :=
  ⟨p.w * q.w - p.x * q.x - p.y * q.y - p.z * q.z,
   p.w * q.x + p.x * q.w + p.y * q.z - p.z * q.y,
   p.w * q.y - p.x * q.z + p.y * q.w + p.z * q.x,
   p.w * q.z + p.x * q.y - p.y * q.x + p.z * q.w⟩

/-- Quaternion conjugate. -/
def Quat.conj (q : Quat) : Quat := ⟨q.w, -q.x, -q.y, -q.z⟩

/-- kindr `inverted()` on a rotation quaternion: the conjugate (rotation
quaternions are unit-norm by class invariant). -/
def Quat.inverted (q : Quat) : Quat := q.conj

/-- kindr `rotate(v)`: conjugation of the pure quaternion `(0,v)` by `q`. -/
def Quat.rotate (q : Quat) (v : Vec3) : Vec3 :=
  let r : Quat := (q.mul ⟨0, v.x, v.y, v.z⟩).mul q.conj
  ⟨r.x, r.y, r.z⟩

/-- Identity quaternion (`setIdentity`). -/
def Quat.id : Quat := ⟨1, 0, 0, 0⟩

/-- Euclidean norm of a 3-vector. -/
noncomputable def norm3 (v : Vec3) : ℝ := Real.sqrt (v.x ^ 2 + v.y ^ 2 + v.z ^ 2)

/-- `LWF::NormalVectorElement::setFromVector`: store the input normalized to
unit length (library semantics; external to `src/`). -/
noncomputable def normalize (v : Vec3) : Vec3 :=
  ⟨v.x / norm3 v, v.y / norm3 v, v.z / norm3 v⟩

/-- Reference bearing direction: `LWF::NormalVectorElement::setIdentity`
represents the vector `(0,0,1)`. -/
def eZ : Vec3 := ⟨0, 0, 1⟩

/-- `DepthMap::DepthType` (source lines 49–54). -/
inductive DepthType where
  | REGULAR
  | INVERSE
  | LOG
  | HYPERBOLIC
deriving DecidableEq

/-- `DepthMap` (source lines 44–196): holds the selected depth type. -/
structure DepthMap where
  type_ : DepthType
deriving DecidableEq

/-- `DepthMap::setType(const DepthType&)` (source lines 68–70). -/
def DepthMap.setType (_m : DepthMap) (t : DepthType) : DepthMap := ⟨t⟩

/-- `DepthMap` constructor (source lines 60–62): default argument `REGULAR`,
then delegates to `setType`. -/
def DepthMap.construct (t : DepthType := DepthType.REGULAR) : DepthMap :=
  DepthMap.setType ⟨t⟩ t

/-- `DepthMap::setType(const int&)` (source lines 76–95): integer selector;
the `default` branch falls back to `REGULAR`. -/
def DepthMap.setTypeInt (_m : DepthMap) (t : ℤ) : DepthMap :=
  if t = 0 then ⟨DepthType.REGULAR⟩
  else if t = 1 then ⟨DepthType.INVERSE⟩
  else if t = 2 then ⟨DepthType.LOG⟩
  else if t = 3 then ⟨DepthType.HYPERBOLIC⟩
  else ⟨DepthType.REGULAR⟩

/-- Whether `DepthMap::setType(const int&)` executes its `default` branch and
emits the "Invalid type for depth parameterization" message on `std::cout`
(source lines 90–93). -/
def DepthMap.setTypeIntReportsInvalid (t : ℤ) : Bool :=
  if t = 0 ∨ t = 1 ∨ t = 2 ∨ t = 3 then false else true

/-- The four output reference arguments of `DepthMap::map`:
depth `d`, derivative `d_p = ∂d/∂p`, `p_d = ∂p/∂d`, `p_d_p = ∂p_d/∂p`. -/
structure DepthVals where
  d : ℝ
  d_p : ℝ
  p_d : ℝ
  p_d_p : ℝ

/-- `DepthMap::mapRegular` (source lines 137–142). -/
def mapRegular (p : ℝ) : DepthVals := ⟨p, 1, 1, 0⟩

/-- `DepthMap::mapInverse` (source lines 152–165): the parameter is clamped
away from zero (sign-preserving, threshold `1e-6`) before inversion. -/
noncomputable def mapInverse (p : ℝ) : DepthVals :=
  let p_temp : ℝ := if |p| < 1e-6 then (if 0 ≤ p then 1e-6 else -1e-6) else p
  let d : ℝ := 1 / p_temp
  ⟨d, -d * d, -p_temp * p_temp, -2 * p_temp⟩

/-- `DepthMap::mapLog` (source lines 175–180). -/
noncomputable def mapLog (p : ℝ) : DepthVals :=
  let d : ℝ := Real.exp p
  let d_p : ℝ := Real.exp p
  ⟨d, d_p, 1 / d, -1 / d ^ 2 * d_p⟩

/-- `DepthMap::mapHyperbolic` (source lines 190–195). -/
noncomputable def mapHyperbolic (p : ℝ) : DepthVals :=
  let d : ℝ := Real.sinh p
  let d_p : ℝ := Real.cosh p
  ⟨d, d_p, 1 / Real.sqrt (d ^ 2 + 1), -d / (d ^ 2 + 1) ^ (1.5 : ℝ) * d_p⟩

/-- `DepthMap::map` (source lines 109–127): dispatch on `type_` (the `default`
branch of the `switch` is unreachable for the four-valued enum). -/
noncomputable def DepthMap.map (m : DepthMap) (p : ℝ) : DepthVals :=
  match m.type_ with
  | DepthType.REGULAR => mapRegular p
  | DepthType.INVERSE => mapInverse p
  | DepthType.LOG => mapLog p
  | DepthType.HYPERBOLIC => mapHyperbolic p

/-- `StateAuxiliary` (source lines 202–249).  Per-slot arrays are modelled as
total `ℕ`-indexed functions (the C++ arrays have `nMax` resp. `nCam` entries);
`LWF::NormalVectorElement` members are modelled by their unit vectors. -/
structure StateAuxiliary where
  MwWMest_ : Vec3
  MwWMmeas_ : Vec3
  wMeasCov_ : ℕ → ℕ → ℝ
  A_red_ : ℕ → ℕ → ℕ → ℝ
  b_red_ : ℕ → Vec2
  bearingMeas_ : ℕ → Vec3
  camID_ : ℕ → ℤ
  bearingCorners_ : ℕ → Vec2 × Vec2
  qCM_ : ℕ → Quat
  MrMC_ : ℕ → Vec3
  doVECalibration_ : Bool
  depthMap_ : DepthMap
  depthTypeInt_ : ℤ
  activeFeature_ : ℤ
  activeCameraCounter_ : ℤ

/-- `StateAuxiliary::StateAuxiliary` (source lines 207–228): zero / identity
defaults, `doVECalibration_ = true`, `depthTypeInt_ = 1` fed to
`depthMap_.setType` (so the depth map is put into `INVERSE` mode), identity
extrinsics cache.  The C++ loops initialize the first `nMax` resp. `nCam`
entries; the model sets the same constants at every index. -/
def StateAuxiliary.init : StateAuxiliary where
  MwWMest_ := ⟨0, 0, 0⟩
  MwWMmeas_ := ⟨0, 0, 0⟩
  wMeasCov_ := fun r c => if r = c then 1 else 0
  A_red_ := fun _ r c => if r = c then 1 else 0
  b_red_ := fun _ => ⟨0, 0⟩
  bearingMeas_ := fun _ => eZ
  camID_ := fun _ => 0
  bearingCorners_ := fun _ => (⟨0, 0⟩, ⟨0, 0⟩)
  qCM_ := fun _ => Quat.id
  MrMC_ := fun _ => ⟨0, 0, 0⟩
  doVECalibration_ := true
  depthTypeInt_ := 1
  depthMap_ := DepthMap.construct.setTypeInt 1
  activeFeature_ := 0
  activeCameraCounter_ := 0

/-- `State` (source lines 255–419): the mean-state blocks.  Block names follow
the index constants `_pos`, `_vel`, `_acb`, `_gyb`, `_att`, `_vep`, `_vea`,
`_dep`, `_nor`, `_aux`.  The per-camera and per-feature arrays are
`ℕ`-indexed total functions; `nor` models the `NormalVectorElement` array by
the unit bearing vectors. -/
@[ext]
structure State where
  pos : Vec3
  vel : Vec3
  acb : Vec3
  gyb : Vec3
  att : Quat
  vep : ℕ → Vec3
  vea : ℕ → Quat
  dep : ℕ → ℝ
  nor : ℕ → Vec3
  aux : StateAuxiliary

/-- Error-space dimension `State::D_` (see header comment). -/
def D (nMax nCam : ℕ) : ℕ := 15 + 6 * nCam + 3 * nMax

/-- `mtState::getId<_dep>(i)`: covariance row/column of slot `i`'s depth. -/
def depId (nCam i : ℕ) : ℕ := 15 + 6 * nCam + i

/-- `mtState::getId<_nor>(i)`: first covariance row/column of slot `i`'s
2-parameter bearing. -/
def norId (nMax nCam i : ℕ) : ℕ := 15 + 6 * nCam + nMax + 2 * i

/-- `State::get_WrWM` (source lines 316–318). -/
def State.get_WrWM (s : State) : Vec3 := s.pos

/-- `State::get_qWM` (source lines 348–350). -/
def State.get_qWM (s : State) : Quat := s.att

/-- `State::get_CfP` (source lines 358–360): `getVec()` of the bearing
element of feature `i`. -/
def State.get_CfP (s : State) (i : ℕ) : Vec3 := s.nor i

/-- `State::get_qCM` (source lines 369–375): estimated extrinsic orientation
if `doVECalibration_`, else the cached fixed value. -/
def State.get_qCM (s : State) (camID : ℕ) : Quat :=
  if s.aux.doVECalibration_ then s.vea camID else s.aux.qCM_ camID

/-- `State::get_MrMC` (source lines 382–388): estimated extrinsic offset if
`doVECalibration_`, else the cached fixed value. -/
def State.get_MrMC (s : State) (camID : ℕ) : Vec3 :=
  if s.aux.doVECalibration_ then s.vep camID else s.aux.MrMC_ camID

/-- `State::get_depth` (source lines 413–417): run the stored depth parameter
of slot `i` through the auxiliary `DepthMap` and return the depth `d`. -/
noncomputable def State.get_depth (s : State) (i : ℕ) : ℝ :=
  (s.aux.depthMap_.map (s.dep i)).d

/-- `FilterState` (source lines 491–577): mean state plus covariance matrix.
The covariance is a total function on `ℕ × ℕ` (the C++ matrix is `D_ × D_`).
The opaque vision members (`mlps_`, `img_`, `patchDrawing_`) are external
image types and are omitted; the scalar members set by the constructor are
kept. -/
@[ext]
structure FilterState where
  state_ : State
  cov_ : ℕ → ℕ → ℝ
  usePredictionMerge_ : Bool
  imgTime_ : ℝ
  imageCounter_ : ℤ

/-- Eigen `cov.block<rows,cols>(r0,c0) = B`: overwrite the index rectangle
`[r0, r0+rows) × [c0, c0+cols)` with `B` (indexed relative to the corner),
leave every other entry unchanged. -/
def setBlock (M : ℕ → ℕ → ℝ) (r0 c0 rows cols : ℕ) (B : ℕ → ℕ → ℝ) :
    ℕ → ℕ → ℝ :=
  fun r c =>
    if r0 ≤ r ∧ r < r0 + rows ∧ c0 ≤ c ∧ c < c0 + cols then
      B (r - r0) (c - c0)
    else M r c

/-- `FilterState::initWithImuPose` (source lines 518–521):
`_pos ← qMW.rotate(WrWM)`, `_att ← qMW.inverted()`. -/
def FilterState.initWithImuPose (fs : FilterState) (WrWM : Vec3) (qMW : Quat) :
    FilterState :=
  { fs with
    state_ := { fs.state_ with pos := qMW.rotate WrWM, att := qMW.inverted } }

/-- `FilterState::initializeFeatureState` (source lines 550–561): store the
depth parameter and the normalized bearing, zero the depth and bearing
rows/columns of the covariance (statements 1–4), then write the 3×3 init
covariance into the four self-blocks (statements 5–8), in source order. -/
noncomputable def FilterState.initializeFeatureState (nMax nCam : ℕ)
    (fs : FilterState) (i : ℕ) (n : Vec3) (d : ℝ) (C : ℕ → ℕ → ℝ) :
    FilterState :=
  { fs with
    state_ := { fs.state_ with
      dep := fun j => if j = i then d else fs.state_.dep j,
      nor := fun j => if j = i then normalize n else fs.state_.nor j },
    cov_ :=
      setBlock
        (setBlock
          (setBlock
            (setBlock
              (setBlock
                (setBlock
                  (setBlock
                    (setBlock fs.cov_
                      0 (depId nCam i) (D nMax nCam) 1 (fun _ _ => 0))
                    (depId nCam i) 0 1 (D nMax nCam) (fun _ _ => 0))
                  0 (norId nMax nCam i) (D nMax nCam) 2 (fun _ _ => 0))
                (norId nMax nCam i) 0 2 (D nMax nCam) (fun _ _ => 0))
              (depId nCam i) (depId nCam i) 1 1 (fun r c => C r c))
            (depId nCam i) (norId nMax nCam i) 1 2 (fun r c => C r (c + 1)))
          (norId nMax nCam i) (depId nCam i) 2 1 (fun r c => C (r + 1) c))
        (norId nMax nCam i) (norId nMax nCam i) 2 2
          (fun r c => C (r + 1) (c + 1)) }

/-- `FilterState::removeFeature` (source lines 567–576): neutral depth `1.0`,
identity bearing, zero the depth and bearing rows/columns of the covariance
(statements 1–4), then set the 1×1 depth and 2×2 bearing self-blocks to the
identity (statements 5–6), in source order. -/
def FilterState.removeFeature (nMax nCam : ℕ) (fs : FilterState) (i : ℕ) :
    FilterState :=
  { fs with
    state_ := { fs.state_ with
      dep := fun j => if j = i then 1 else fs.state_.dep j,
      nor := fun j => if j = i then eZ else fs.state_.nor j },
    cov_ :=
      setBlock
        (setBlock
          (setBlock
            (setBlock
              (setBlock
                (setBlock fs.cov_
                  0 (depId nCam i) (D nMax nCam) 1 (fun _ _ => 0))
                (depId nCam i) 0 1 (D nMax nCam) (fun _ _ => 0))
              0 (norId nMax nCam i) (D nMax nCam) 2 (fun _ _ => 0))
            (norId nMax nCam i) 0 2 (D nMax nCam) (fun _ _ => 0))
          (depId nCam i) (depId nCam i) 1 1 (fun _ _ => 1))
        (norId nMax nCam i) (norId nMax nCam i) 2 2
          (fun r c => if r = c then 1 else 0) }

/-- A concrete state used to instantiate universally quantified theorems:
zero kinematic blocks, identity quaternions, reference bearings, and the
auxiliary block produced by the `StateAuxiliary` constructor. -/
def s0 : State where
  pos := ⟨0, 0, 0⟩
  vel := ⟨0, 0, 0⟩
  acb := ⟨0, 0, 0⟩
  gyb := ⟨0, 0, 0⟩
  att := Quat.id
  vep := fun _ => ⟨0, 0, 0⟩
  vea := fun _ => Quat.id
  dep := fun _ => 0
  nor := fun _ => eZ
  aux := StateAuxiliary.init

/-- A concrete freshly constructed filter state (`FilterState::FilterState`,
source lines 507–511, sets the three scalar members; the state blocks carry
the library defaults of `s0` and the covariance starts at zero). -/
def fs0 : FilterState where
  state_ := s0
  cov_ := fun _ _ => 0
  usePredictionMerge_ := true
  imgTime_ := 0
  imageCounter_ := 0

/-- The 3×3 init covariance `diag(0.1, 0.01, 0.01)` of the spec's concrete
scenario, as a total function. -/
def Cdiag : ℕ → ℕ → ℝ :=
  fun r c =>
    if r = 0 ∧ c = 0 then 0.1
    else if r = c ∧ (r = 1 ∨ r = 2) then 0.01
    else 0

/-- The spec's concrete scenario: `nMax = 1` (one camera), feature slot 0
initialized with bearing `(0,0,1)`, depth value `2.0`, covariance
`diag(0.1, 0.01, 0.01)`, starting from the freshly constructed state. -/
noncomputable def scenario1 : FilterState :=
  FilterState.initializeFeatureState 1 1 fs0 0 ⟨0, 0, 1⟩ 2 Cdiag

/-! ## Theorems -/

theorem app2_congr {α : Type} (f : ℕ → ℕ → α) {a a' b b' : ℕ}
    (ha : a = a') (hb : b = b') : f a b = f a' b' := by
  rw [ha, hb]

theorem init_dep_self (nMax nCam : ℕ) (fs : FilterState) (i : ℕ) (n : Vec3)
    (d : ℝ) (C : ℕ → ℕ → ℝ) :
    (FilterState.initializeFeatureState nMax nCam fs i n d C).state_.dep i = d := by
  simp [FilterState.initializeFeatureState]

theorem init_nor_self (nMax nCam : ℕ) (fs : FilterState) (i : ℕ) (n : Vec3)
    (d : ℝ) (C : ℕ → ℕ → ℝ) :
    (FilterState.initializeFeatureState nMax nCam fs i n d C).state_.nor i =
      normalize n := by
  simp [FilterState.initializeFeatureState]

set_option maxHeartbeats 1000000 in
theorem init_cross_zero (nMax nCam : ℕ) (fs : FilterState) (i : ℕ) (n : Vec3)
    (d : ℝ) (C : ℕ → ℕ → ℝ) (hi : i < nMax) (r c : ℕ) (hr : r < D nMax nCam)
    (h1 : r ≠ depId nCam i) (h2 : r ≠ norId nMax nCam i)
    (h3 : r ≠ norId nMax nCam i + 1)
    (hc : c = depId nCam i ∨ c = norId nMax nCam i ∨ c = norId nMax nCam i + 1) :
    (FilterState.initializeFeatureState nMax nCam fs i n d C).cov_ r c = 0 ∧
    (FilterState.initializeFeatureState nMax nCam fs i n d C).cov_ c r = 0 := by
  constructor <;>
    (simp only [FilterState.initializeFeatureState, setBlock]
     simp only [depId, norId, D] at hr h1 h2 h3 hc ⊢
     split_ifs <;> first | rfl | (exfalso; omega))

set_option maxHeartbeats 1000000 in
theorem init_self_block_dep (nMax nCam : ℕ) (fs : FilterState) (i : ℕ)
    (n : Vec3) (d : ℝ) (C : ℕ → ℕ → ℝ) (hi : i < nMax) :
    (FilterState.initializeFeatureState nMax nCam fs i n d C).cov_ (depId nCam i) (depId nCam i) = C 0 0 ∧
    (FilterState.initializeFeatureState nMax nCam fs i n d C).cov_ (depId nCam i) (norId nMax nCam i) = C 0 1 ∧
    (FilterState.initializeFeatureState nMax nCam fs i n d C).cov_ (depId nCam i) (norId nMax nCam i + 1) = C 0 2 := by
  refine ⟨?_, ?_, ?_⟩ <;>
    (simp only [FilterState.initializeFeatureState, setBlock]
     simp only [depId, norId, D]
     split_ifs <;>
       first
         | (exfalso; omega)
         | (exact app2_congr C (by omega) (by omega)))

set_option maxHeartbeats 1000000 in
theorem init_self_block_nor (nMax nCam : ℕ) (fs : FilterState) (i : ℕ)
    (n : Vec3) (d : ℝ) (C : ℕ → ℕ → ℝ) (hi : i < nMax) (k : ℕ) (hk : k < 2) :
    (FilterState.initializeFeatureState nMax nCam fs i n d C).cov_ (norId nMax nCam i + k) (depId nCam i) = C (k + 1) 0 ∧
    (FilterState.initializeFeatureState nMax nCam fs i n d C).cov_ (norId nMax nCam i + k) (norId nMax nCam i) = C (k + 1) 1 ∧
    (FilterState.initializeFeatureState nMax nCam fs i n d C).cov_ (norId nMax nCam i + k) (norId nMax nCam i + 1) = C (k + 1) 2 := by
  refine ⟨?_, ?_, ?_⟩ <;>
    (simp only [FilterState.initializeFeatureState, setBlock]
     simp only [depId, norId, D] at hk ⊢
     split_ifs <;>
       first
         | (exfalso; omega)
         | (exact app2_congr C (by omega) (by omega)))

set_option maxHeartbeats 1000000 in
theorem init_cov_frame (nMax nCam : ℕ) (fs : FilterState) (i : ℕ) (n : Vec3)
    (d : ℝ) (C : ℕ → ℕ → ℝ) (r c : ℕ)
    (h1 : r ≠ depId nCam i) (h2 : r ≠ norId nMax nCam i)
    (h3 : r ≠ norId nMax nCam i + 1) (h4 : c ≠ depId nCam i)
    (h5 : c ≠ norId nMax nCam i) (h6 : c ≠ norId nMax nCam i + 1) :
    (FilterState.initializeFeatureState nMax nCam fs i n d C).cov_ r c =
      fs.cov_ r c := by
  simp only [FilterState.initializeFeatureState, setBlock]
  simp only [depId, norId, D] at h1 h2 h3 h4 h5 h6 ⊢
  split_ifs <;> first | rfl | (exfalso; omega)

theorem init_state_frame (nMax nCam : ℕ) (fs : FilterState) (i : ℕ) (n : Vec3)
    (d : ℝ) (C : ℕ → ℕ → ℝ) :
    (FilterState.initializeFeatureState nMax nCam fs i n d C).state_.pos = fs.state_.pos ∧
    (FilterState.initializeFeatureState nMax nCam fs i n d C).state_.vel = fs.state_.vel ∧
    (FilterState.initializeFeatureState nMax nCam fs i n d C).state_.acb = fs.state_.acb ∧
    (FilterState.initializeFeatureState nMax nCam fs i n d C).state_.gyb = fs.state_.gyb ∧
    (FilterState.initializeFeatureState nMax nCam fs i n d C).state_.att = fs.state_.att ∧
    (FilterState.initializeFeatureState nMax nCam fs i n d C).state_.vep = fs.state_.vep ∧
    (FilterState.initializeFeatureState nMax nCam fs i n d C).state_.vea = fs.state_.vea ∧
    (∀ j, j ≠ i →
      (FilterState.initializeFeatureState nMax nCam fs i n d C).state_.dep j = fs.state_.dep j ∧
      (FilterState.initializeFeatureState nMax nCam fs i n d C).state_.nor j = fs.state_.nor j) ∧
    (FilterState.initializeFeatureState nMax nCam fs i n d C).state_.aux = fs.state_.aux := by
  refine ⟨rfl, rfl, rfl, rfl, rfl, rfl, rfl, ?_, rfl⟩
  intro j hj
  constructor <;> simp [FilterState.initializeFeatureState, hj]

/-- Claim C2: for every slot `i < nMax`, bearing `n`, depth `d` and 3×3 matrix
`C`, `initializeFeatureState(i, n, d, C)` sets the slot's depth parameter to
`d` and its bearing to `n` normalized, zeroes every cross-covariance entry
between the slot's three rows/columns (depth at `depId i`, bearing at
`norId i`, `norId i + 1`) and all other state dimensions, writes the slot's
3×3 self-covariance exactly from `C` in the order `[depth, bearing1,
bearing2]`, and changes no other covariance entry and no other state block. -/
theorem initializeFeatureState_spec (nMax nCam : ℕ) (fs : FilterState) (i : ℕ)
    (n : Vec3) (d : ℝ) (C : ℕ → ℕ → ℝ) (hi : i < nMax) :
    (FilterState.initializeFeatureState nMax nCam fs i n d C).state_.dep i = d ∧
    (FilterState.initializeFeatureState nMax nCam fs i n d C).state_.nor i = normalize n ∧
    (∀ r c, r < D nMax nCam → r ≠ depId nCam i → r ≠ norId nMax nCam i →
      r ≠ norId nMax nCam i + 1 →
      (c = depId nCam i ∨ c = norId nMax nCam i ∨ c = norId nMax nCam i + 1) →
      (FilterState.initializeFeatureState nMax nCam fs i n d C).cov_ r c = 0 ∧
      (FilterState.initializeFeatureState nMax nCam fs i n d C).cov_ c r = 0) ∧
    ((FilterState.initializeFeatureState nMax nCam fs i n d C).cov_ (depId nCam i) (depId nCam i) = C 0 0 ∧
     (FilterState.initializeFeatureState nMax nCam fs i n d C).cov_ (depId nCam i) (norId nMax nCam i) = C 0 1 ∧
     (FilterState.initializeFeatureState nMax nCam fs i n d C).cov_ (depId nCam i) (norId nMax nCam i + 1) = C 0 2 ∧
     (∀ k, k < 2 →
       (FilterState.initializeFeatureState nMax nCam fs i n d C).cov_ (norId nMax nCam i + k) (depId nCam i) = C (k + 1) 0 ∧
       (FilterState.initializeFeatureState nMax nCam fs i n d C).cov_ (norId nMax nCam i + k) (norId nMax nCam i) = C (k + 1) 1 ∧
       (FilterState.initializeFeatureState nMax nCam fs i n d C).cov_ (norId nMax nCam i + k) (norId nMax nCam i + 1) = C (k + 1) 2)) ∧
    (∀ r c, r ≠ depId nCam i → r ≠ norId nMax nCam i → r ≠ norId nMax nCam i + 1 →
      c ≠ depId nCam i → c ≠ norId nMax nCam i → c ≠ norId nMax nCam i + 1 →
      (FilterState.initializeFeatureState nMax nCam fs i n d C).cov_ r c = fs.cov_ r c) ∧
    ((FilterState.initializeFeatureState nMax nCam fs i n d C).state_.pos = fs.state_.pos ∧
     (FilterState.initializeFeatureState nMax nCam fs i n d C).state_.vel = fs.state_.vel ∧
     (FilterState.initializeFeatureState nMax nCam fs i n d C).state_.acb = fs.state_.acb ∧
     (FilterState.initializeFeatureState nMax nCam fs i n d C).state_.gyb = fs.state_.gyb ∧
     (FilterState.initializeFeatureState nMax nCam fs i n d C).state_.att = fs.state_.att ∧
     (FilterState.initializeFeatureState nMax nCam fs i n d C).state_.vep = fs.state_.vep ∧
     (FilterState.initializeFeatureState nMax nCam fs i n d C).state_.vea = fs.state_.vea ∧
     (∀ j, j ≠ i →
       (FilterState.initializeFeatureState nMax nCam fs i n d C).state_.dep j = fs.state_.dep j ∧
       (FilterState.initializeFeatureState nMax nCam fs i n d C).state_.nor j = fs.state_.nor j) ∧
     (FilterState.initializeFeatureState nMax nCam fs i n d C).state_.aux = fs.state_.aux) :=
  ⟨init_dep_self nMax nCam fs i n d C,
   init_nor_self nMax nCam fs i n d C,
   fun r c hr h1 h2 h3 hc =>
     init_cross_zero nMax nCam fs i n d C hi r c hr h1 h2 h3 hc,
   ⟨(init_self_block_dep nMax nCam fs i n d C hi).1,
    (init_self_block_dep nMax nCam fs i n d C hi).2.1,
    (init_self_block_dep nMax nCam fs i n d C hi).2.2,
    fun k hk => init_self_block_nor nMax nCam fs i n d C hi k hk⟩,
   fun r c h1 h2 h3 h4 h5 h6 =>
     init_cov_frame nMax nCam fs i n d C r c h1 h2 h3 h4 h5 h6,
   init_state_frame nMax nCam fs i n d C⟩

/-- Witness for C2: the hypotheses are satisfied at `nMax = nCam = 1`,
`i = 0`, on the concrete fresh filter state. -/
theorem initializeFeatureState_spec_witness :
    (FilterState.initializeFeatureState 1 1 fs0 0 ⟨0, 0, 1⟩ 2 Cdiag).state_.dep 0 = 2 ∧
    (FilterState.initializeFeatureState 1 1 fs0 0 ⟨0, 0, 1⟩ 2 Cdiag).cov_ (depId 1 0) (depId 1 0) = Cdiag 0 0 :=
  ⟨(initializeFeatureState_spec 1 1 fs0 0 ⟨0, 0, 1⟩ 2 Cdiag (by omega)).1,
   (initializeFeatureState_spec 1 1 fs0 0 ⟨0, 0, 1⟩ 2 Cdiag (by omega)).2.2.2.1.1⟩

set_option maxHeartbeats 1000000 in
theorem remove_cross_zero (nMax nCam : ℕ) (fs : FilterState) (i : ℕ)
    (hi : i < nMax) (r c : ℕ) (hr : r < D nMax nCam)
    (h1 : r ≠ depId nCam i) (h2 : r ≠ norId nMax nCam i)
    (h3 : r ≠ norId nMax nCam i + 1)
    (hc : c = depId nCam i ∨ c = norId nMax nCam i ∨ c = norId nMax nCam i + 1) :
    (FilterState.removeFeature nMax nCam fs i).cov_ r c = 0 ∧
    (FilterState.removeFeature nMax nCam fs i).cov_ c r = 0 := by
  constructor <;>
    (simp only [FilterState.removeFeature, setBlock]
     simp only [depId, norId, D] at hr h1 h2 h3 hc ⊢
     split_ifs <;> first | rfl | (exfalso; omega))

set_option maxHeartbeats 1000000 in
theorem remove_self_identity (nMax nCam : ℕ) (fs : FilterState) (i : ℕ)
    (hi : i < nMax) :
    (FilterState.removeFeature nMax nCam fs i).cov_ (depId nCam i) (depId nCam i) = 1 ∧
    (∀ j k, j < 2 → k < 2 →
      (FilterState.removeFeature nMax nCam fs i).cov_ (norId nMax nCam i + j) (norId nMax nCam i + k) =
        if j = k then 1 else 0) := by
  constructor
  · simp only [FilterState.removeFeature, setBlock]
    simp only [depId, norId, D]
    split_ifs <;> first | rfl | (exfalso; omega)
  · intro j k hj hk
    simp only [FilterState.removeFeature, setBlock]
    simp only [depId, norId, D] at hj hk ⊢
    split_ifs <;> first | rfl | (exfalso; omega)

theorem remove_depth_value (nMax nCam : ℕ) (fs : FilterState) (i : ℕ) :
    (FilterState.removeFeature nMax nCam fs i).state_.get_depth i =
      (fs.state_.aux.depthMap_.map 1).d := by
  simp [State.get_depth, FilterState.removeFeature]

theorem map_one_pos (m : DepthMap) :
    0 < (m.map 1).d ∧ (m.map 1).d < 3 := by
  cases h : m.type_ <;>
    simp only [DepthMap.map, h, mapRegular, mapInverse, mapLog, mapHyperbolic]
  · norm_num
  · norm_num
  · constructor
    · exact Real.exp_pos 1
    · have := Real.exp_one_lt_d9
      norm_num at this ⊢
      linarith
  · rw [Real.sinh_eq]
    have h1 := Real.exp_one_lt_d9
    have h2 := Real.exp_pos (-1 : ℝ)
    have h3 : Real.exp (-1 : ℝ) < 1 := by
      have := Real.exp_lt_exp_of_lt (x := (-1 : ℝ)) (y := 0) (by norm_num)
      simpa using this
    norm_num at h1 ⊢
    try constructor
    all_goals linarith

/-- Claim C3: for every slot `i < nMax`, `removeFeature(i)` sets the slot's
depth parameter to `1.0` and its bearing to the identity/reference direction,
zeroes all cross-covariance between the slot's depth/bearing dimensions and
every other state dimension, sets the slot's own 1×1 depth and 2×2 bearing
self-covariance blocks to the identity matrix, and afterwards `get_depth(i)`
is finite and positive (in this real-number model finiteness is expressed by
the explicit bound `< 3`, valid for every depth encoding at parameter 1). -/
theorem removeFeature_spec (nMax nCam : ℕ) (fs : FilterState) (i : ℕ)
    (hi : i < nMax) :
    (FilterState.removeFeature nMax nCam fs i).state_.dep i = 1 ∧
    (FilterState.removeFeature nMax nCam fs i).state_.nor i = eZ ∧
    (∀ r c, r < D nMax nCam → r ≠ depId nCam i → r ≠ norId nMax nCam i →
      r ≠ norId nMax nCam i + 1 →
      (c = depId nCam i ∨ c = norId nMax nCam i ∨ c = norId nMax nCam i + 1) →
      (FilterState.removeFeature nMax nCam fs i).cov_ r c = 0 ∧
      (FilterState.removeFeature nMax nCam fs i).cov_ c r = 0) ∧
    (FilterState.removeFeature nMax nCam fs i).cov_ (depId nCam i) (depId nCam i) = 1 ∧
    (∀ j k, j < 2 → k < 2 →
      (FilterState.removeFeature nMax nCam fs i).cov_ (norId nMax nCam i + j) (norId nMax nCam i + k) =
        if j = k then 1 else 0) ∧
    (0 < (FilterState.removeFeature nMax nCam fs i).state_.get_depth i ∧
      (FilterState.removeFeature nMax nCam fs i).state_.get_depth i < 3) := by
  refine ⟨by simp [FilterState.removeFeature], by simp [FilterState.removeFeature],
    fun r c hr h1 h2 h3 hc => remove_cross_zero nMax nCam fs i hi r c hr h1 h2 h3 hc,
    (remove_self_identity nMax nCam fs i hi).1,
    (remove_self_identity nMax nCam fs i hi).2, ?_⟩
  rw [remove_depth_value nMax nCam fs i]
  exact map_one_pos fs.state_.aux.depthMap_

/-- Witness for C3: the hypothesis `i < nMax` is satisfied at
`nMax = nCam = 1`, `i = 0`, on the concrete fresh filter state. -/
theorem removeFeature_spec_witness :
    (FilterState.removeFeature 1 1 fs0 0).state_.dep 0 = 1 ∧
    (FilterState.removeFeature 1 1 fs0 0).cov_ (depId 1 0) (depId 1 0) = 1 :=
  ⟨(removeFeature_spec 1 1 fs0 0 (by omega)).1,
   (removeFeature_spec 1 1 fs0 0 (by omega)).2.2.2.1⟩

set_option maxHeartbeats 1000000 in
theorem init_cov_outside (nMax nCam : ℕ) (fs : FilterState) (i : ℕ) (n : Vec3)
    (d : ℝ) (C : ℕ → ℕ → ℝ) (r c : ℕ) (hi : i < nMax)
    (h : ¬ ((r < D nMax nCam ∧
        (c = depId nCam i ∨ c = norId nMax nCam i ∨ c = norId nMax nCam i + 1)) ∨
      (c < D nMax nCam ∧
        (r = depId nCam i ∨ r = norId nMax nCam i ∨ r = norId nMax nCam i + 1)))) :
    (FilterState.initializeFeatureState nMax nCam fs i n d C).cov_ r c =
      fs.cov_ r c := by
  simp only [FilterState.initializeFeatureState, setBlock]
  simp only [depId, norId, D] at h ⊢
  split_ifs <;> first | rfl | (exfalso; omega)

set_option maxHeartbeats 1000000 in
theorem init_cov_inside (nMax nCam : ℕ) (fs fs' : FilterState) (i : ℕ)
    (n n' : Vec3) (d d' : ℝ) (C : ℕ → ℕ → ℝ) (r c : ℕ) (hi : i < nMax)
    (h : (r < D nMax nCam ∧
        (c = depId nCam i ∨ c = norId nMax nCam i ∨ c = norId nMax nCam i + 1)) ∨
      (c < D nMax nCam ∧
        (r = depId nCam i ∨ r = norId nMax nCam i ∨ r = norId nMax nCam i + 1))) :
    (FilterState.initializeFeatureState nMax nCam fs i n d C).cov_ r c =
      (FilterState.initializeFeatureState nMax nCam fs' i n' d' C).cov_ r c := by
  simp only [FilterState.initializeFeatureState, setBlock]
  simp only [depId, norId, D] at h ⊢
  split_ifs <;> first | rfl | (exfalso; omega)

set_option maxHeartbeats 1000000 in
theorem remove_cov_outside (nMax nCam : ℕ) (fs : FilterState) (i : ℕ)
    (r c : ℕ) (hi : i < nMax)
    (h : ¬ ((r < D nMax nCam ∧
        (c = depId nCam i ∨ c = norId nMax nCam i ∨ c = norId nMax nCam i + 1)) ∨
      (c < D nMax nCam ∧
        (r = depId nCam i ∨ r = norId nMax nCam i ∨ r = norId nMax nCam i + 1)))) :
    (FilterState.removeFeature nMax nCam fs i).cov_ r c = fs.cov_ r c := by
  simp only [FilterState.removeFeature, setBlock]
  simp only [depId, norId, D] at h ⊢
  split_ifs <;> first | rfl | (exfalso; omega)

set_option maxHeartbeats 1000000 in
theorem remove_cov_inside (nMax nCam : ℕ) (fs fs' : FilterState) (i : ℕ)
    (r c : ℕ) (hi : i < nMax)
    (h : (r < D nMax nCam ∧
        (c = depId nCam i ∨ c = norId nMax nCam i ∨ c = norId nMax nCam i + 1)) ∨
      (c < D nMax nCam ∧
        (r = depId nCam i ∨ r = norId nMax nCam i ∨ r = norId nMax nCam i + 1))) :
    (FilterState.removeFeature nMax nCam fs i).cov_ r c =
      (FilterState.removeFeature nMax nCam fs' i).cov_ r c := by
  simp only [FilterState.removeFeature, setBlock]
  simp only [depId, norId, D] at h ⊢
  split_ifs <;> first | rfl | (exfalso; omega)

/-- Claim C4: `removeFeature(i)` followed by `initializeFeatureState(i,b,d,C)`
yields a state and covariance identical to calling `initializeFeatureState`
alone on the same starting state: the initializer overwrites everything the
removal touched. -/
theorem remove_then_initialize (nMax nCam : ℕ) (fs : FilterState) (i : ℕ)
    (n : Vec3) (d : ℝ) (C : ℕ → ℕ → ℝ) (hi : i < nMax) :
    FilterState.initializeFeatureState nMax nCam
        (FilterState.removeFeature nMax nCam fs i) i n d C =
      FilterState.initializeFeatureState nMax nCam fs i n d C := by
  have hst : (FilterState.initializeFeatureState nMax nCam
      (FilterState.removeFeature nMax nCam fs i) i n d C).state_ =
      (FilterState.initializeFeatureState nMax nCam fs i n d C).state_ := by
    refine State.ext rfl rfl rfl rfl rfl rfl rfl ?_ ?_ rfl
    · funext j
      by_cases hj : j = i <;>
        simp [FilterState.initializeFeatureState, FilterState.removeFeature, hj]
    · funext j
      by_cases hj : j = i <;>
        simp [FilterState.initializeFeatureState, FilterState.removeFeature, hj]
  have hcov : (FilterState.initializeFeatureState nMax nCam
      (FilterState.removeFeature nMax nCam fs i) i n d C).cov_ =
      (FilterState.initializeFeatureState nMax nCam fs i n d C).cov_ := by
    funext r c
    by_cases h : (r < D nMax nCam ∧
        (c = depId nCam i ∨ c = norId nMax nCam i ∨ c = norId nMax nCam i + 1)) ∨
      (c < D nMax nCam ∧
        (r = depId nCam i ∨ r = norId nMax nCam i ∨ r = norId nMax nCam i + 1))
    · exact init_cov_inside nMax nCam (FilterState.removeFeature nMax nCam fs i)
        fs i n n d d C r c hi h
    · rw [init_cov_outside nMax nCam (FilterState.removeFeature nMax nCam fs i)
          i n d C r c hi h,
        remove_cov_outside nMax nCam fs i r c hi h,
        init_cov_outside nMax nCam fs i n d C r c hi h]
  exact FilterState.ext hst hcov rfl rfl rfl

/-- Witness for C4: the hypothesis `i < nMax` is satisfied at
`nMax = nCam = 1`, `i = 0`, on the concrete fresh filter state. -/
theorem remove_then_initialize_witness :
    FilterState.initializeFeatureState 1 1 (FilterState.removeFeature 1 1 fs0 0)
        0 ⟨0, 0, 1⟩ 2 Cdiag =
      FilterState.initializeFeatureState 1 1 fs0 0 ⟨0, 0, 1⟩ 2 Cdiag :=
  remove_then_initialize 1 1 fs0 0 ⟨0, 0, 1⟩ 2 Cdiag (by omega)

/-- Claim C9: `removeFeature` is idempotent: removing an already-removed slot
reproduces exactly the same state and covariance. -/
theorem removeFeature_idempotent (nMax nCam : ℕ) (fs : FilterState) (i : ℕ)
    (hi : i < nMax) :
    FilterState.removeFeature nMax nCam (FilterState.removeFeature nMax nCam fs i) i =
      FilterState.removeFeature nMax nCam fs i := by
  have hst : (FilterState.removeFeature nMax nCam
      (FilterState.removeFeature nMax nCam fs i) i).state_ =
      (FilterState.removeFeature nMax nCam fs i).state_ := by
    refine State.ext rfl rfl rfl rfl rfl rfl rfl ?_ ?_ rfl
    · funext j
      by_cases hj : j = i <;> simp [FilterState.removeFeature, hj]
    · funext j
      by_cases hj : j = i <;> simp [FilterState.removeFeature, hj]
  have hcov : (FilterState.removeFeature nMax nCam
      (FilterState.removeFeature nMax nCam fs i) i).cov_ =
      (FilterState.removeFeature nMax nCam fs i).cov_ := by
    funext r c
    by_cases h : (r < D nMax nCam ∧
        (c = depId nCam i ∨ c = norId nMax nCam i ∨ c = norId nMax nCam i + 1)) ∨
      (c < D nMax nCam ∧
        (r = depId nCam i ∨ r = norId nMax nCam i ∨ r = norId nMax nCam i + 1))
    · exact remove_cov_inside nMax nCam (FilterState.removeFeature nMax nCam fs i)
        fs i r c hi h
    · exact remove_cov_outside nMax nCam (FilterState.removeFeature nMax nCam fs i)
        i r c hi h
  exact FilterState.ext hst hcov rfl rfl rfl

/-- Witness for C9: the hypothesis `i < nMax` is satisfied at
`nMax = nCam = 1`, `i = 0`, on the concrete fresh filter state. -/
theorem removeFeature_idempotent_witness :
    FilterState.removeFeature 1 1 (FilterState.removeFeature 1 1 fs0 0) 0 =
      FilterState.removeFeature 1 1 fs0 0 :=
  removeFeature_idempotent 1 1 fs0 0 (by omega)

/-- Claim C5: `get_qCM`/`get_MrMC` return the optimized extrinsics blocks
(`_vea`, `_vep`) when `doVECalibration_` is true and the cached fixed values
(`qCM_`, `MrMC_`) when it is false, for every camera index `camID < nCam`,
including after the flag is toggled; the branch is uniform in the camera
index. -/
theorem extrinsics_accessor_spec (nCam : ℕ) (s : State) (camID : ℕ)
    (h : camID < nCam) :
    (s.aux.doVECalibration_ = true →
      s.get_qCM camID = s.vea camID ∧ s.get_MrMC camID = s.vep camID) ∧
    (s.aux.doVECalibration_ = false →
      s.get_qCM camID = s.aux.qCM_ camID ∧
      s.get_MrMC camID = s.aux.MrMC_ camID) ∧
    (∀ b : Bool,
      ({ s with aux := { s.aux with doVECalibration_ := b } } : State).get_qCM camID =
        (if b then s.vea camID else s.aux.qCM_ camID) ∧
      ({ s with aux := { s.aux with doVECalibration_ := b } } : State).get_MrMC camID =
        (if b then s.vep camID else s.aux.MrMC_ camID)) := by
  refine ⟨fun hb => ?_, fun hb => ?_, fun b => ?_⟩
  · constructor <;> simp [State.get_qCM, State.get_MrMC, hb]
  · constructor <;> simp [State.get_qCM, State.get_MrMC, hb]
  · cases b <;> constructor <;> simp [State.get_qCM, State.get_MrMC]

/-- Witness for C5: the hypothesis `camID < nCam` is satisfied at
`nCam = 1`, `camID = 0`, on the concrete fresh state (whose calibration flag
is true). -/
theorem extrinsics_accessor_spec_witness :
    s0.get_qCM 0 = s0.vea 0 ∧ s0.get_MrMC 0 = s0.vep 0 :=
  (extrinsics_accessor_spec 1 s0 0 (by omega)).1 rfl

/-- Claim C6 (code bug): configuring the depth parameterization with the
unrecognized selector 4, `DepthMap::setType(int)` executes its `default`
branch: it prints the invalid-type message but then silently substitutes the
default encoding `REGULAR` — exactly the result of selector 0 — instead of
rejecting the selector. -/
theorem setTypeInt_invalid_eval :
    (DepthMap.construct.setTypeInt 4).type_ = DepthType.REGULAR ∧
    DepthMap.construct.setTypeInt 4 = DepthMap.construct.setTypeInt 0 ∧
    DepthMap.setTypeIntReportsInvalid 4 = true ∧
    DepthMap.setTypeIntReportsInvalid 1 = false := by
  refine ⟨by decide, by decide, by decide, by decide⟩

theorem mapInverse_clamp_low (p : ℝ) (hp : |p| < 1e-6) (hs : 0 ≤ p) :
    mapInverse p = mapInverse 1e-6 := by
  have h2 : ¬ (|(1e-6 : ℝ)| < 1e-6) := by
    rw [abs_of_nonneg (by norm_num : (0 : ℝ) ≤ 1e-6)]
    norm_num
  simp only [mapInverse]
  rw [if_pos hp, if_pos hs, if_neg h2]

theorem mapInverse_clamp_neg (p : ℝ) (hp : |p| < 1e-6) (hs : ¬ 0 ≤ p) :
    mapInverse p = mapInverse (-1e-6) := by
  have h2 : ¬ (|(-1e-6 : ℝ)| < 1e-6) := by
    rw [abs_neg, abs_of_nonneg (by norm_num : (0 : ℝ) ≤ 1e-6)]
    norm_num
  simp only [mapInverse]
  rw [if_pos hp, if_neg hs, if_neg h2]

theorem mapInverse_noclamp (p : ℝ) (hd : 1e-6 ≤ |p|) :
    (mapInverse p).d = 1 / p := by
  simp only [mapInverse]
  rw [if_neg (not_lt.mpr hd)]

/-- Claim C7: under the Inverse encoding, for every `p` with `|p| < 1e-6`,
`DepthMap::map` returns exactly the tuple it returns at the sign-matching
clamped boundary (`1e-6` if `p ≥ 0`, `-1e-6` if `p < 0`); and for every real
parameter the returned depth is bounded (`|d| ≤ 1e6`), i.e. the internal
division is guarded away from zero and the depth is finite. -/
theorem mapInverse_clamp_spec (p : ℝ) :
    (|p| < 1e-6 →
      (DepthMap.mk DepthType.INVERSE).map p =
        (DepthMap.mk DepthType.INVERSE).map (if 0 ≤ p then 1e-6 else -1e-6)) ∧
    |((DepthMap.mk DepthType.INVERSE).map p).d| ≤ 1e6 := by
  constructor
  · intro hp
    by_cases hs : 0 ≤ p
    · rw [if_pos hs]
      exact mapInverse_clamp_low p hp hs
    · rw [if_neg hs]
      exact mapInverse_clamp_neg p hp hs
  · show |(mapInverse p).d| ≤ 1e6
    simp only [mapInverse]
    by_cases hp : |p| < 1e-6
    · by_cases hs : 0 ≤ p
      · rw [if_pos hp, if_pos hs, abs_le]
        constructor <;> norm_num
      · rw [if_pos hp, if_neg hs, abs_le]
        constructor <;> norm_num
    · rw [if_neg hp]
      have h1 : (1e-6 : ℝ) ≤ |p| := not_lt.mp hp
      have h2 : (0 : ℝ) < |p| := lt_of_lt_of_le (by norm_num) h1
      have h3 : |1 / p| = 1 / |p| := by rw [abs_div, abs_one]
      rw [h3, div_le_iff h2]
      have h4 := mul_le_mul_of_nonneg_left h1 (by norm_num : (0 : ℝ) ≤ 1e6)
      norm_num at h4 ⊢
      linarith

/-- Witness for C7: the inner hypothesis `|p| < 1e-6` is satisfied at
`p = 0`, where the clamped boundary is `1e-6`. -/
theorem mapInverse_clamp_witness :
    (DepthMap.mk DepthType.INVERSE).map 0 =
      (DepthMap.mk DepthType.INVERSE).map 1e-6 ∧
    |((DepthMap.mk DepthType.INVERSE).map 0).d| ≤ 1e6 := by
  have h := mapInverse_clamp_spec 0
  refine ⟨?_, h.2⟩
  have h1 := h.1 (by rw [abs_zero]; norm_num)
  rwa [if_pos (le_refl (0 : ℝ))] at h1

/-- Claim C8 (code bug): `initWithImuPose(WrWM, qMW)` stores
`qMW.rotate(WrWM)` — the supplied position rotated into IMU coordinates —
into the `_pos` block, although `_pos` is documented as the World-to-IMU
vector expressed in World-Coordinates and the claim (and the function's own
documentation) require the stored position to equal the supplied world-frame
`WrWM`.  Evaluated at `WrWM = (0,0,1)` and the unit quaternion
`(3/5, 4/5, 0, 0)`: the stored position is `(0, -24/25, -7/25) ≠ (0,0,1)`,
while the attitude is, as claimed, `qMW` inverted. -/
theorem initWithImuPose_eval :
    (fs0.initWithImuPose ⟨0, 0, 1⟩ ⟨3/5, 4/5, 0, 0⟩).state_.pos =
      ⟨0, -(24/25), -(7/25)⟩ ∧
    (fs0.initWithImuPose ⟨0, 0, 1⟩ ⟨3/5, 4/5, 0, 0⟩).state_.pos ≠
      ⟨0, 0, 1⟩ ∧
    (fs0.initWithImuPose ⟨0, 0, 1⟩ ⟨3/5, 4/5, 0, 0⟩).state_.att =
      Quat.inverted ⟨3/5, 4/5, 0, 0⟩ := by
  have hpos : (fs0.initWithImuPose ⟨0, 0, 1⟩ ⟨3/5, 4/5, 0, 0⟩).state_.pos =
      (⟨0, -(24/25), -(7/25)⟩ : Vec3) := by
    simp only [FilterState.initWithImuPose, Quat.rotate, Quat.mul, Quat.conj,
      Vec3.mk.injEq]
    norm_num
  refine ⟨hpos, ?_, rfl⟩
  rw [hpos]
  intro hEq
  have hy := congrArg Vec3.y hEq
  norm_num at hy

theorem get_depth_init_aux (s : State) (hs : s.aux = StateAuxiliary.init)
    (i : ℕ) : s.get_depth i = (mapInverse (s.dep i)).d := by
  have ht : s.aux.depthMap_ = ⟨DepthType.INVERSE⟩ := by
    rw [hs]
    decide
  simp [State.get_depth, ht, DepthMap.map]

/-- Claim C10: a freshly constructed state's depth encoding is `INVERSE`, not
`REGULAR`: the `DepthMap` constructor alone defaults to `REGULAR`, but the
`StateAuxiliary` constructor sets `depthTypeInt_ = 1` and configures
`depthMap_` with it; consequently, on any state carrying the
constructor-produced auxiliary block, stored depth parameters are read
through the inverse map (`d = 1/p` away from the clamp). -/
theorem default_depth_encoding :
    DepthMap.construct.type_ = DepthType.REGULAR ∧
    StateAuxiliary.init.depthTypeInt_ = 1 ∧
    StateAuxiliary.init.depthMap_.type_ = DepthType.INVERSE ∧
    (∀ s : State, s.aux = StateAuxiliary.init → ∀ i,
      s.get_depth i = (mapInverse (s.dep i)).d) ∧
    (∀ s : State, s.aux = StateAuxiliary.init → ∀ i, 1e-6 ≤ |s.dep i| →
      s.get_depth i = 1 / s.dep i) := by
  refine ⟨rfl, rfl, by decide, fun s hs i => get_depth_init_aux s hs i,
    fun s hs i hd => ?_⟩
  rw [get_depth_init_aux s hs i, mapInverse_noclamp (s.dep i) hd]

/-- Witness for C10: the inner hypotheses are satisfied by the fresh state
`s0` (whose auxiliary block is the constructor output) and, for the no-clamp
reading, by the scenario state whose slot-0 parameter is 2. -/
theorem default_depth_encoding_witness :
    s0.get_depth 0 = (mapInverse (s0.dep 0)).d ∧
    scenario1.state_.get_depth 0 = 1 / scenario1.state_.dep 0 := by
  constructor
  · exact default_depth_encoding.2.2.2.1 s0 rfl 0
  · refine default_depth_encoding.2.2.2.2 scenario1.state_ rfl 0 ?_
    have h2 : scenario1.state_.dep 0 = 2 := by
      simp [scenario1, FilterState.initializeFeatureState]
    rw [h2]
    exact le_trans (by norm_num) (le_abs_self 2)

theorem scenario1_depth : scenario1.state_.get_depth 0 = 1/2 := by
  rw [get_depth_init_aux scenario1.state_ rfl 0]
  have h2 : scenario1.state_.dep 0 = 2 := by
    simp [scenario1, FilterState.initializeFeatureState]
  rw [h2, mapInverse_noclamp 2 (le_trans (by norm_num) (le_abs_self 2))]

/-- Claim C1 counterexample: in the spec's concrete scenario (default
configuration, i.e. Inverse depth encoding) the depth accessor returns
`0.5` — the inverse of the supplied depth value `2.0` — not approximately
`2.0` (read generously as within `1.0`). -/
theorem scenario_get_depth_not_two :
    scenario1.state_.get_depth 0 = 1/2 ∧
    ¬ |scenario1.state_.get_depth 0 - 2| < 1 := by
  refine ⟨scenario1_depth, ?_⟩
  rw [scenario1_depth]
  rw [show (1 : ℝ)/2 - 2 = -(3/2) by norm_num, abs_neg,
    abs_of_nonneg (by norm_num : (0 : ℝ) ≤ 3/2)]
  norm_num

/-- Claim C1 amended: in the concrete scenario, `get_depth(0)` returns `0.5`
(the supplied depth value `2.0` is stored as the parameter and read through
the default Inverse encoding), `get_CfP(0)` is the unit-norm vector `(0,0,1)`
(parallel to the supplied bearing), and after `removeFeature(0)` the depth
accessor returns `1.0` and the slot's depth self-covariance entry is `1.0`. -/
theorem scenario_behavior :
    scenario1.state_.get_depth 0 = 1/2 ∧
    scenario1.state_.get_CfP 0 = ⟨0, 0, 1⟩ ∧
    norm3 (scenario1.state_.get_CfP 0) = 1 ∧
    (FilterState.removeFeature 1 1 scenario1 0).state_.get_depth 0 = 1 ∧
    (FilterState.removeFeature 1 1 scenario1 0).cov_ (depId 1 0) (depId 1 0) = 1 := by
  have hn : norm3 ⟨0, 0, 1⟩ = 1 := by
    simp [norm3]
  have hcfp : scenario1.state_.get_CfP 0 = (⟨0, 0, 1⟩ : Vec3) := by
    have h1 : scenario1.state_.get_CfP 0 = normalize ⟨0, 0, 1⟩ := by
      simp [State.get_CfP, scenario1, FilterState.initializeFeatureState]
    rw [h1]
    simp [normalize, hn]
  have hrem : (FilterState.removeFeature 1 1 scenario1 0).state_.get_depth 0 = 1 := by
    rw [remove_depth_value 1 1 scenario1 0]
    have ht : scenario1.state_.aux.depthMap_ = ⟨DepthType.INVERSE⟩ := by decide
    rw [ht]
    show (mapInverse 1).d = 1
    rw [mapInverse_noclamp 1 (le_trans (by norm_num) (le_abs_self 1))]
    norm_num
  refine ⟨scenario1_depth, hcfp, ?_, hrem,
    (remove_self_identity 1 1 scenario1 0 (by omega)).1⟩
  rw [hcfp]
  exact hn

end rovio
